import Mathlib

/-!
Verification of the `ohtuvarasto` warehouse application.

The repository is a small Flask application (`src/app.py`) maintaining two
in-memory dictionaries: `warehouses` (name → `Varasto`) and `articles`
(name → size).  The `Varasto` class itself lives in `varasto.py`, which is
imported by `app.py` but is not part of the sources available here; its
operations are therefore modelled from the specification (see the doc
comments marked `Modelled from the spec:`).  Everything else is translated
directly from `src/app.py`.

Modelling choices:
* Python floats are modelled as rationals (ℚ); the application only ever
  compares and adds the numbers it parses.
* A numeric form field is modelled by `NumText`: `NumText.num q` stands for
  a text that `float(...)` parses to the value `q` (the literal `"0"` is
  `NumText.num 0`), and `NumText.bad` for a text on which `float(...)`
  raises `ValueError`.  A whole optional form field is `Option NumText` /
  `Option String`: `none` when absent from the request, matching
  `request.form.get(key, default)`.
* Flask `flash(...)` calls are modelled by the inductive type `Msg`, one
  constructor per distinct message format string of `app.py`; each handler
  returns the new state together with the list of messages it flashed, in
  order.
* Python dictionaries are modelled as association lists with the dictionary
  operations `getKey` (`d[k]` / `d.get`), `hasKey` (`k in d`), `setKey`
  (`d[k] = v`: overwrite in place or append) and `delKey` (`del d[k]`).
* `str.strip()` is modelled by `pyStrip`, restricted to the ASCII whitespace
  characters; no claim depends on non-ASCII whitespace.
-/

namespace Ohtuvarasto

/-- Dictionary lookup `d[k]` / `d.get(k)` on an association list. -/
def getKey (l : List (String × α)) (k : String) : Option α :=
  match l with
  | [] => none
  | (k2, v) :: rest => if k2 = k then some v else getKey rest k

/-- Membership test `k in d` on an association list. -/
def hasKey (l : List (String × α)) (k : String) : Bool :=
  (getKey l k).isSome

/-- Dictionary assignment `d[k] = v`: overwrite the existing binding in
place, or append a new one (Python dictionaries keep insertion order). -/
def setKey (l : List (String × α)) (k : String) (v : α) : List (String × α) :=
  match l with
  | [] => [(k, v)]
  | (k2, v2) :: rest => if k2 = k then (k2, v) :: rest else (k2, v2) :: setKey rest k v

/-- Dictionary deletion `del d[k]`. -/
def delKey (l : List (String × α)) (k : String) : List (String × α) :=
  match l with
  | [] => []
  | (k2, v2) :: rest => if k2 = k then rest else (k2, v2) :: delKey rest k

/-- The ASCII whitespace characters stripped by Python `str.strip()`
(space, tab, newline, carriage return, vertical tab, form feed). -/
def pyIsSpace (c : Char) : Bool :=
  c == ' ' || c == '\t' || c == '\n' || c == '\r' || c.val == 11 || c.val == 12

/-- Python `str.strip()`: drop leading and trailing whitespace. -/
def pyStrip (s : String) : String :=
  ⟨((s.data.dropWhile pyIsSpace).reverse.dropWhile pyIsSpace).reverse⟩

/-- A numeric form text, abstracted by what `float(...)` does to it:
`num q` parses to the rational `q`, `bad` raises `ValueError`. -/
inductive NumText where
  | num (q : ℚ)
  | bad
deriving DecidableEq

/-- One constructor per distinct `flash(...)` message format of `app.py`,
carrying the interpolated data. -/
inductive Msg where
  | warehouseNameRequired
  | warehouseExists (name : String)
  | invalidCapacity
  | warehouseCreated (name : String)
  | warehouseNotFound (name : String)
  | invalidAmount
  | added (amount : ℚ) (name : String)
  | removed (amount : ℚ) (name : String)
  | warehouseDeleted (name : String)
  | articleNameRequired
  | articleExists (name : String)
  | invalidSize
  | sizeMustBePositive
  | articleCreated (name : String) (size : ℚ)
  | articleDeleted (name : String)
  | notEnoughSpace (name : String) (size : ℚ)
  | articleNotFound (name : String)
  | addedArticle (article : String) (warehouse : String)
deriving DecidableEq

/-- Modelled from the spec: `varasto.py` (class `Varasto`) is imported by
`app.py` but absent from the sources; per the spec a Storage holds a fixed
`capacity` and a current `balance` (source attribute names `tilavuus` and
`saldo`, as used by the tests). -/
structure Varasto where
  tilavuus : ℚ
  saldo : ℚ
deriving DecidableEq

/-- Result of a Storage deposit/withdraw operation, per the spec taxonomy. -/
inductive VResult where
  | ok
  | negativeAmount
  | insufficientSpace
  | insufficientBalance
deriving DecidableEq

/-- Modelled from the spec: `create(capacity) -> Storage` fails with
`InvalidCapacity` if `capacity < 0`; resulting balance is 0. -/
def Varasto.create (capacity : ℚ) : Option Varasto :=
  if capacity < 0 then none else some ⟨capacity, 0⟩

/-- Modelled from the spec: `available_space()` returns
`capacity - balance`. -/
def Varasto.paljonko_mahtuu (v : Varasto) : ℚ :=
  v.tilavuus - v.saldo

/-- Modelled from the spec: `deposit(amount)`: if `amount < 0`, a silently
rejected no-op; if `balance + amount > capacity`, rejected with
`InsufficientSpace` and balance unchanged; otherwise `balance += amount`. -/
def Varasto.lisaa_varastoon (v : Varasto) (maara : ℚ) : Varasto × VResult :=
  if maara < 0 then (v, .negativeAmount)
  else if v.tilavuus < v.saldo + maara then (v, .insufficientSpace)
  else ({ v with saldo := v.saldo + maara }, .ok)

/-- Modelled from the spec: `withdraw(amount)`: if `amount < 0`, a no-op;
if `amount > balance`, rejected with `InsufficientBalance` and balance
unchanged; otherwise `balance -= amount`. -/
def Varasto.ota_varastosta (v : Varasto) (maara : ℚ) : Varasto × VResult :=
  if maara < 0 then (v, .negativeAmount)
  else if v.saldo < maara then (v, .insufficientBalance)
  else ({ v with saldo := v.saldo - maara }, .ok)

/-- The two module-level dictionaries of `app.py`:
`warehouses` (name → Varasto) and `articles` (name → size). -/
structure AppState where
  warehouses : List (String × Varasto)
  articles : List (String × ℚ)
deriving DecidableEq

/-- The empty initial state of `app.py` (both dictionaries start empty). -/
def initState : AppState := ⟨[], []⟩

/-- Source `_parse_float(value, error_msg)`: parse a float and flash the
error message if invalid, returning `None`. -/
def parseFloat (value : NumText) (errorMsg : Msg) : Option ℚ × List Msg :=
  match value with
  | .num q => (some q, [])
  | .bad => (none, [errorMsg])

/-- Source `_validate_warehouse_name(name)`: `"Warehouse name is
required."` for a falsy (empty) name, `"... already exists."` for a
duplicate, `None` otherwise. -/
def validate_warehouse_name (warehouses : List (String × Varasto)) (name : String) :
    Option Msg :=
  if name = "" then some .warehouseNameRequired
  else if hasKey warehouses name then some (.warehouseExists name)
  else none

/-- Source `create_warehouse()` (POST /warehouses):
`name = request.form.get("name", "").strip()`,
`capacity = request.form.get("capacity", "0")`, validate the name, then
parse the capacity and insert `Varasto(capacity_float)`.  The constructor
itself is modelled from the spec (`Varasto.create`); its spec-mandated
rejection of a negative capacity is reported as the invalid-capacity
error, the only capacity error channel `app.py` has. -/
def create_warehouse (s : AppState) (nameField : Option String)
    (capacityField : Option NumText) : AppState × List Msg :=
  let name := pyStrip (nameField.getD "")
  let capacity := capacityField.getD (NumText.num 0)
  match validate_warehouse_name s.warehouses name with
  | some error => (s, [error])
  | none =>
    match parseFloat capacity .invalidCapacity with
    | (some c, msgs) =>
      match Varasto.create c with
      | some v => ({ s with warehouses := setKey s.warehouses name v },
                   msgs ++ [.warehouseCreated name])
      | none => (s, msgs ++ [.invalidCapacity])
    | (none, msgs) => (s, msgs)

/-- Source `add_to_warehouse(name)` (POST /warehouses/name/add): flash
not-found if the name is absent, else parse
`request.form.get("amount", "0")` and call `lisaa_varastoon`; the flash
`"Added ..."` is emitted whenever the amount parsed, the Varasto-level
result being discarded exactly as in the source. -/
def add_to_warehouse (s : AppState) (name : String) (amountField : Option NumText) :
    AppState × List Msg :=
  match getKey s.warehouses name with
  | none => (s, [.warehouseNotFound name])
  | some v =>
    let amount := amountField.getD (NumText.num 0)
    match parseFloat amount .invalidAmount with
    | (some a, msgs) =>
      ({ s with warehouses := setKey s.warehouses name (v.lisaa_varastoon a).1 },
       msgs ++ [.added a name])
    | (none, msgs) => (s, msgs)

/-- Source `remove_from_warehouse(name)` (POST /warehouses/name/remove):
symmetric to `add_to_warehouse`, calling `ota_varastosta`. -/
def remove_from_warehouse (s : AppState) (name : String) (amountField : Option NumText) :
    AppState × List Msg :=
  match getKey s.warehouses name with
  | none => (s, [.warehouseNotFound name])
  | some v =>
    let amount := amountField.getD (NumText.num 0)
    match parseFloat amount .invalidAmount with
    | (some a, msgs) =>
      ({ s with warehouses := setKey s.warehouses name (v.ota_varastosta a).1 },
       msgs ++ [.removed a name])
    | (none, msgs) => (s, msgs)

/-- Source `delete_warehouse(name)`: delete if present, silently ignore
otherwise. -/
def delete_warehouse (s : AppState) (name : String) : AppState × List Msg :=
  if hasKey s.warehouses name then
    ({ s with warehouses := delKey s.warehouses name }, [.warehouseDeleted name])
  else (s, [])

/-- Source `_validate_article_name(name)`. -/
def validate_article_name (articles : List (String × ℚ)) (name : String) :
    Option Msg :=
  if name = "" then some .articleNameRequired
  else if hasKey articles name then some (.articleExists name)
  else none

/-- Source `_validate_article_size(size_float)`: an error only when the
size parsed (`is not None`) and is `<= 0`. -/
def validate_article_size (sizeFloat : Option ℚ) : Option Msg :=
  match sizeFloat with
  | some q => if q ≤ 0 then some .sizeMustBePositive else none
  | none => none

/-- Source `_save_article(name, size)`: parse the size (flashing the
invalid-size message on failure), validate it, and insert on success.
Returns the updated articles dictionary, the messages flashed inside, and
the returned error message (`None` on success or parse failure). -/
def save_article (articles : List (String × ℚ)) (name : String) (size : NumText) :
    List (String × ℚ) × List Msg × Option Msg :=
  match parseFloat size .invalidSize with
  | (sizeFloat, msgs) =>
    match validate_article_size sizeFloat with
    | some e => (articles, msgs, some e)
    | none =>
      match sizeFloat with
      | some q => (setKey articles name q, msgs, none)
      | none => (articles, msgs, none)

/-- Source `create_article()` (POST /articles): strip the name, validate
it, then `_save_article` with `request.form.get("size", "0")`; flash the
size error if any, else flash the created message only if the name ended
up in the dictionary (`elif name in articles`). -/
def create_article (s : AppState) (nameField : Option String)
    (sizeField : Option NumText) : AppState × List Msg :=
  let name := pyStrip (nameField.getD "")
  match validate_article_name s.articles name with
  | some error => (s, [error])
  | none =>
    match save_article s.articles name (sizeField.getD (NumText.num 0)) with
    | (articles2, msgs, some e) => ({ s with articles := articles2 }, msgs ++ [e])
    | (articles2, msgs, none) =>
      match getKey articles2 name with
      | some sz => ({ s with articles := articles2 }, msgs ++ [.articleCreated name sz])
      | none => ({ s with articles := articles2 }, msgs)

/-- Source `delete_article(name)`: delete if present, silently ignore
otherwise. -/
def delete_article (s : AppState) (name : String) : AppState × List Msg :=
  if hasKey s.articles name then
    ({ s with articles := delKey s.articles name }, [.articleDeleted name])
  else (s, [])

/-- Source `_try_add_article(wh_name, article_name)`: only called after
validation, so both lookups succeed; compare the article size with
`paljonko_mahtuu()` and deposit on success.  The catch-all branch is
unreachable under the caller's validation. -/
def try_add_article (s : AppState) (whName articleName : String) :
    AppState × Option Msg :=
  match getKey s.articles articleName, getKey s.warehouses whName with
  | some size, some wh =>
    if wh.paljonko_mahtuu < size then (s, some (.notEnoughSpace articleName size))
    else ({ s with warehouses := setKey s.warehouses whName (wh.lisaa_varastoon size).1 },
          none)
  | _, _ => (s, none)

/-- Source `_validate_add_article_request(wh_name, article_name)`:
warehouse checked first, article second. -/
def validate_add_article_request (s : AppState) (whName articleName : String) :
    Option Msg :=
  if hasKey s.warehouses whName then
    if hasKey s.articles articleName then none
    else some (.articleNotFound articleName)
  else some (.warehouseNotFound whName)

/-- Source `add_article_to_warehouse(wh_name)` (POST
/warehouses/wh_name/add-article): strip the submitted article name,
validate, then `_try_add_article`. -/
def add_article_to_warehouse (s : AppState) (whName : String)
    (articleField : Option String) : AppState × List Msg :=
  let articleName := pyStrip (articleField.getD "")
  match validate_add_article_request s whName articleName with
  | some error => (s, [error])
  | none =>
    match try_add_article s whName articleName with
    | (s2, some e) => (s2, [e])
    | (s2, none) => (s2, [.addedArticle articleName whName])

/-- One mutating request to the application, with its form fields
(`none` = field absent from the request). -/
inductive Op where
  | createWarehouse (nameField : Option String) (capacityField : Option NumText)
  | addAmount (name : String) (amountField : Option NumText)
  | removeAmount (name : String) (amountField : Option NumText)
  | deleteWarehouse (name : String)
  | createArticle (nameField : Option String) (sizeField : Option NumText)
  | deleteArticle (name : String)
  | applyArticle (whName : String) (articleField : Option String)

/-- Dispatch one request to its handler, keeping the resulting state. -/
def step (s : AppState) (op : Op) : AppState :=
  match op with
  | .createWarehouse n c => (create_warehouse s n c).1
  | .addAmount n a => (add_to_warehouse s n a).1
  | .removeAmount n a => (remove_from_warehouse s n a).1
  | .deleteWarehouse n => (delete_warehouse s n).1
  | .createArticle n sz => (create_article s n sz).1
  | .deleteArticle n => (delete_article s n).1
  | .applyArticle w a => (add_article_to_warehouse s w a).1

/-- Run a sequence of requests from a state. -/
def run (s : AppState) (ops : List Op) : AppState :=
  match ops with
  | [] => s
  | op :: rest => run (step s op) rest

/-- The core Storage invariant: `0 ≤ balance ≤ capacity`. -/
def VarastoOk (v : Varasto) : Prop :=
  0 ≤ v.saldo ∧ v.saldo ≤ v.tilavuus

/-- The registry invariant: every warehouse in the dictionary satisfies
the Storage invariant. -/
def Inv (s : AppState) : Prop :=
  ∀ p ∈ s.warehouses, VarastoOk p.2

/-! ### Dictionary lemmas -/

theorem getKey_setKey_self (l : List (String × α)) (k : String) (v : α) :
    getKey (setKey l k v) k = some v := by
  induction l with
  | nil => simp [setKey, getKey]
  | cons hd tl ih =>
    obtain ⟨k2, v2⟩ := hd
    by_cases hk : k2 = k
    · simp [setKey, getKey, hk]
    · simp [setKey, getKey, hk, ih]

theorem mem_of_getKey_some {l : List (String × α)} {k : String} {v : α}
    (h : getKey l k = some v) : (k, v) ∈ l := by
  induction l with
  | nil => simp [getKey] at h
  | cons hd tl ih =>
    obtain ⟨k2, v2⟩ := hd
    by_cases hk : k2 = k
    · subst hk
      simp [getKey] at h
      simp [h]
    · simp [getKey, hk] at h
      exact List.mem_cons_of_mem _ (ih h)

theorem mem_setKey {l : List (String × α)} {k : String} {v : α} {p : String × α}
    (h : p ∈ setKey l k v) : p ∈ l ∨ p = (k, v) := by
  induction l with
  | nil => simp [setKey] at h; simp [h]
  | cons hd tl ih =>
    obtain ⟨k2, v2⟩ := hd
    by_cases hk : k2 = k
    · simp [setKey, hk] at h
      rcases h with h | h
      · right; simp [h, hk]
      · left; exact List.mem_cons_of_mem _ h
    · simp [setKey, hk] at h
      rcases h with h | h
      · left; simp [h]
      · rcases ih h with h2 | h2
        · left; exact List.mem_cons_of_mem _ h2
        · right; exact h2

theorem mem_delKey {l : List (String × α)} {k : String} {p : String × α}
    (h : p ∈ delKey l k) : p ∈ l := by
  induction l with
  | nil => simp [delKey] at h
  | cons hd tl ih =>
    obtain ⟨k2, v2⟩ := hd
    by_cases hk : k2 = k
    · simp [delKey, hk] at h
      exact List.mem_cons_of_mem _ h
    · simp [delKey, hk] at h
      rcases h with h | h
      · simp [h]
      · exact List.mem_cons_of_mem _ (ih h)

/-! ### Storage invariant lemmas -/

theorem varastoOk_create {c : ℚ} {v : Varasto} (h : Varasto.create c = some v) :
    VarastoOk v := by
  unfold Varasto.create at h
  split at h
  · exact absurd h (by simp)
  · cases h
    exact ⟨le_refl 0, le_of_not_lt (by assumption)⟩

theorem varastoOk_lisaa {v : Varasto} (h : VarastoOk v) (a : ℚ) :
    VarastoOk (v.lisaa_varastoon a).1 := by
  unfold Varasto.lisaa_varastoon
  split
  · exact h
  · split
    · exact h
    · have ha := le_of_not_lt (show ¬a < 0 by assumption)
      have ht := le_of_not_lt (show ¬v.tilavuus < v.saldo + a by assumption)
      exact ⟨add_nonneg h.1 ha, ht⟩

theorem varastoOk_ota {v : Varasto} (h : VarastoOk v) (a : ℚ) :
    VarastoOk (v.ota_varastosta a).1 := by
  unfold Varasto.ota_varastosta
  split
  · exact h
  · split
    · exact h
    · have ha := le_of_not_lt (show ¬a < 0 by assumption)
      have hs := le_of_not_lt (show ¬v.saldo < a by assumption)
      refine ⟨sub_nonneg.2 hs, ?_⟩
      show v.saldo - a ≤ v.tilavuus
      linarith [h.2]

/-- Updating one warehouse with a value satisfying the Storage invariant
preserves the registry invariant. -/
theorem invList_setKey {l : List (String × Varasto)} {k : String} {v : Varasto}
    (h : ∀ p ∈ l, VarastoOk p.2) (hv : VarastoOk v) :
    ∀ p ∈ setKey l k v, VarastoOk p.2 := by
  intro p hp
  rcases mem_setKey hp with h2 | h2
  · exact h p h2
  · rw [h2]; exact hv

/-! ### Invariant preservation, handler by handler -/

theorem inv_create_warehouse (s : AppState) (n : Option String) (c : Option NumText)
    (h : Inv s) : Inv (create_warehouse s n c).1 := by
  unfold create_warehouse
  dsimp only
  split
  · exact h
  · split
    · split
      · intro p hp
        refine invList_setKey h (varastoOk_create (by assumption)) p hp
      · exact h
    · exact h

theorem inv_add_to_warehouse (s : AppState) (n : String) (a : Option NumText)
    (h : Inv s) : Inv (add_to_warehouse s n a).1 := by
  unfold add_to_warehouse
  split
  · exact h
  · rename_i v hv
    dsimp only
    split
    · intro p hp
      exact invList_setKey h (varastoOk_lisaa (h _ (mem_of_getKey_some hv)) _) p hp
    · exact h

theorem inv_remove_from_warehouse (s : AppState) (n : String) (a : Option NumText)
    (h : Inv s) : Inv (remove_from_warehouse s n a).1 := by
  unfold remove_from_warehouse
  split
  · exact h
  · rename_i v hv
    dsimp only
    split
    · intro p hp
      exact invList_setKey h (varastoOk_ota (h _ (mem_of_getKey_some hv)) _) p hp
    · exact h

theorem inv_delete_warehouse (s : AppState) (n : String) (h : Inv s) :
    Inv (delete_warehouse s n).1 := by
  unfold delete_warehouse
  split
  · intro p hp
    exact h p (mem_delKey hp)
  · exact h

theorem inv_create_article (s : AppState) (n : Option String) (sz : Option NumText)
    (h : Inv s) : Inv (create_article s n sz).1 := by
  unfold create_article
  dsimp only
  split
  · exact h
  · split
    · exact h
    · split
      · exact h
      · exact h

theorem inv_delete_article (s : AppState) (n : String) (h : Inv s) :
    Inv (delete_article s n).1 := by
  unfold delete_article
  split
  · exact h
  · exact h

theorem inv_try_add_article (s : AppState) (w a : String) (h : Inv s) :
    Inv (try_add_article s w a).1 := by
  unfold try_add_article
  split
  · rename_i size wh hart hwh
    split
    · exact h
    · intro p hp
      exact invList_setKey h (varastoOk_lisaa (h _ (mem_of_getKey_some hwh)) _) p hp
  · exact h

theorem inv_add_article_to_warehouse (s : AppState) (w : String) (a : Option String)
    (h : Inv s) : Inv (add_article_to_warehouse s w a).1 := by
  unfold add_article_to_warehouse
  dsimp only
  split
  · exact h
  · split
    · rename_i s2 e heq
      have h2 := inv_try_add_article s w (pyStrip (a.getD "")) h
      rw [heq] at h2
      exact h2
    · rename_i s2 heq
      have h2 := inv_try_add_article s w (pyStrip (a.getD "")) h
      rw [heq] at h2
      exact h2

theorem inv_step (s : AppState) (op : Op) (h : Inv s) : Inv (step s op) := by
  cases op with
  | createWarehouse n c => exact inv_create_warehouse s n c h
  | addAmount n a => exact inv_add_to_warehouse s n a h
  | removeAmount n a => exact inv_remove_from_warehouse s n a h
  | deleteWarehouse n => exact inv_delete_warehouse s n h
  | createArticle n sz => exact inv_create_article s n sz h
  | deleteArticle n => exact inv_delete_article s n h
  | applyArticle w a => exact inv_add_article_to_warehouse s w a h

theorem inv_run (s : AppState) (ops : List Op) (h : Inv s) : Inv (run s ops) := by
  induction ops generalizing s with
  | nil => exact h
  | cons op rest ih => exact ih _ (inv_step s op h)

/-! ### Stripping and lookup helper lemmas -/

theorem dropWhile_eq_nil_of_all {p : Char → Bool} {l : List Char} (h : l.all p) :
    l.dropWhile p = [] := by
  induction l with
  | nil => rfl
  | cons c tl ih =>
    simp only [List.all_cons, Bool.and_eq_true] at h
    simp [List.dropWhile, h.1, ih h.2]

theorem pyStrip_eq_empty {s : String} (h : s.data.all pyIsSpace) :
    pyStrip s = "" := by
  unfold pyStrip
  rw [dropWhile_eq_nil_of_all h]
  rfl

theorem getKey_eq_none {l : List (String × α)} {k : String}
    (h : hasKey l k = false) : getKey l k = none := by
  unfold hasKey at h
  cases hg : getKey l k with
  | none => rfl
  | some v => rw [hg] at h; simp at h

/-! ### Branch equations for the Storage operations -/

theorem lisaa_neg (v : Varasto) (a : ℚ) (h : a < 0) :
    v.lisaa_varastoon a = (v, VResult.negativeAmount) := by
  unfold Varasto.lisaa_varastoon
  rw [if_pos h]

theorem lisaa_over (v : Varasto) (a : ℚ) (h0 : 0 ≤ a)
    (h : v.tilavuus < v.saldo + a) :
    v.lisaa_varastoon a = (v, VResult.insufficientSpace) := by
  unfold Varasto.lisaa_varastoon
  rw [if_neg (not_lt.2 h0), if_pos h]

theorem lisaa_accept (v : Varasto) (a : ℚ) (h0 : 0 ≤ a)
    (h : v.saldo + a ≤ v.tilavuus) :
    v.lisaa_varastoon a = ({ v with saldo := v.saldo + a }, VResult.ok) := by
  unfold Varasto.lisaa_varastoon
  rw [if_neg (not_lt.2 h0), if_neg (not_lt.2 h)]

theorem ota_neg (v : Varasto) (a : ℚ) (h : a < 0) :
    v.ota_varastosta a = (v, VResult.negativeAmount) := by
  unfold Varasto.ota_varastosta
  rw [if_pos h]

theorem ota_over (v : Varasto) (a : ℚ) (h0 : 0 ≤ a) (h : v.saldo < a) :
    v.ota_varastosta a = (v, VResult.insufficientBalance) := by
  unfold Varasto.ota_varastosta
  rw [if_neg (not_lt.2 h0), if_pos h]

theorem ota_accept (v : Varasto) (a : ℚ) (h0 : 0 ≤ a) (h : a ≤ v.saldo) :
    v.ota_varastosta a = ({ v with saldo := v.saldo - a }, VResult.ok) := by
  unfold Varasto.ota_varastosta
  rw [if_neg (not_lt.2 h0), if_neg (not_lt.2 h)]

/-! ### Branch equations for `create_warehouse` -/

theorem cw_nameRequired (s : AppState) (raw : String) (cap : Option NumText)
    (h : pyStrip raw = "") :
    create_warehouse s (some raw) cap = (s, [Msg.warehouseNameRequired]) := by
  unfold create_warehouse
  simp only [Option.getD_some, h]
  rfl

theorem cw_duplicate (s : AppState) (raw : String) (cap : Option NumText)
    (h1 : pyStrip raw ≠ "") (h2 : hasKey s.warehouses (pyStrip raw) = true) :
    create_warehouse s (some raw) cap = (s, [Msg.warehouseExists (pyStrip raw)]) := by
  have hval : validate_warehouse_name s.warehouses (pyStrip raw) =
      some (Msg.warehouseExists (pyStrip raw)) := by
    unfold validate_warehouse_name
    rw [if_neg h1, if_pos h2]
  unfold create_warehouse
  simp only [Option.getD_some]
  rw [hval]

theorem cw_validate_none (s : AppState) (raw : String)
    (h1 : pyStrip raw ≠ "") (h2 : hasKey s.warehouses (pyStrip raw) = false) :
    validate_warehouse_name s.warehouses (pyStrip raw) = none := by
  unfold validate_warehouse_name
  rw [if_neg h1, if_neg (by simp [h2])]

theorem cw_badCapacity (s : AppState) (raw : String) (cap : Option NumText)
    (h1 : pyStrip raw ≠ "") (h2 : hasKey s.warehouses (pyStrip raw) = false)
    (hbad : cap.getD (NumText.num 0) = NumText.bad) :
    create_warehouse s (some raw) cap = (s, [Msg.invalidCapacity]) := by
  unfold create_warehouse
  simp only [Option.getD_some]
  rw [cw_validate_none s raw h1 h2, hbad]
  rfl

theorem cw_negCapacity (s : AppState) (raw : String) (cap : Option NumText) (c : ℚ)
    (h1 : pyStrip raw ≠ "") (h2 : hasKey s.warehouses (pyStrip raw) = false)
    (hc : cap.getD (NumText.num 0) = NumText.num c) (hneg : c < 0) :
    create_warehouse s (some raw) cap = (s, [Msg.invalidCapacity]) := by
  have hcr : Varasto.create c = none := by
    unfold Varasto.create
    rw [if_pos hneg]
  unfold create_warehouse
  simp only [Option.getD_some]
  rw [cw_validate_none s raw h1 h2, hc]
  simp only [parseFloat, hcr, List.nil_append]

theorem cw_success (s : AppState) (raw : String) (cap : Option NumText) (c : ℚ)
    (h1 : pyStrip raw ≠ "") (h2 : hasKey s.warehouses (pyStrip raw) = false)
    (hc : cap.getD (NumText.num 0) = NumText.num c) (h0 : 0 ≤ c) :
    create_warehouse s (some raw) cap =
      ({ s with warehouses := setKey s.warehouses (pyStrip raw) ⟨c, 0⟩ },
       [Msg.warehouseCreated (pyStrip raw)]) := by
  have hcr : Varasto.create c = some ⟨c, 0⟩ := by
    unfold Varasto.create
    rw [if_neg (not_lt.2 h0)]
  unfold create_warehouse
  simp only [Option.getD_some]
  rw [cw_validate_none s raw h1 h2, hc]
  simp only [parseFloat, hcr, List.nil_append]

/-! ### Branch equations for the amount handlers -/

theorem addw_notFound (s : AppState) (nm : String) (af : Option NumText)
    (h : getKey s.warehouses nm = none) :
    add_to_warehouse s nm af = (s, [Msg.warehouseNotFound nm]) := by
  unfold add_to_warehouse
  rw [h]

theorem addw_parsed (s : AppState) (nm : String) (af : Option NumText)
    (v : Varasto) (a : ℚ) (hv : getKey s.warehouses nm = some v)
    (ha : af.getD (NumText.num 0) = NumText.num a) :
    add_to_warehouse s nm af =
      ({ s with warehouses := setKey s.warehouses nm (v.lisaa_varastoon a).1 },
       [Msg.added a nm]) := by
  unfold add_to_warehouse
  rw [hv]
  dsimp only
  rw [ha]
  rfl

theorem addw_badAmount (s : AppState) (nm : String) (af : Option NumText)
    (v : Varasto) (hv : getKey s.warehouses nm = some v)
    (ha : af.getD (NumText.num 0) = NumText.bad) :
    add_to_warehouse s nm af = (s, [Msg.invalidAmount]) := by
  unfold add_to_warehouse
  rw [hv]
  dsimp only
  rw [ha]
  rfl

theorem remw_notFound (s : AppState) (nm : String) (af : Option NumText)
    (h : getKey s.warehouses nm = none) :
    remove_from_warehouse s nm af = (s, [Msg.warehouseNotFound nm]) := by
  unfold remove_from_warehouse
  rw [h]

theorem remw_parsed (s : AppState) (nm : String) (af : Option NumText)
    (v : Varasto) (a : ℚ) (hv : getKey s.warehouses nm = some v)
    (ha : af.getD (NumText.num 0) = NumText.num a) :
    remove_from_warehouse s nm af =
      ({ s with warehouses := setKey s.warehouses nm (v.ota_varastosta a).1 },
       [Msg.removed a nm]) := by
  unfold remove_from_warehouse
  rw [hv]
  dsimp only
  rw [ha]
  rfl

/-! ### Branch equations for `create_article` -/

theorem ca_nameRequired (s : AppState) (raw : String) (sz : Option NumText)
    (h : pyStrip raw = "") :
    create_article s (some raw) sz = (s, [Msg.articleNameRequired]) := by
  unfold create_article
  simp only [Option.getD_some, h]
  rfl

theorem ca_duplicate (s : AppState) (raw : String) (sz : Option NumText)
    (h1 : pyStrip raw ≠ "") (h2 : hasKey s.articles (pyStrip raw) = true) :
    create_article s (some raw) sz = (s, [Msg.articleExists (pyStrip raw)]) := by
  have hval : validate_article_name s.articles (pyStrip raw) =
      some (Msg.articleExists (pyStrip raw)) := by
    unfold validate_article_name
    rw [if_neg h1, if_pos h2]
  unfold create_article
  simp only [Option.getD_some]
  rw [hval]

theorem ca_validate_none (s : AppState) (raw : String)
    (h1 : pyStrip raw ≠ "") (h2 : hasKey s.articles (pyStrip raw) = false) :
    validate_article_name s.articles (pyStrip raw) = none := by
  unfold validate_article_name
  rw [if_neg h1, if_neg (by simp [h2])]

theorem ca_badSize (s : AppState) (raw : String) (sz : Option NumText)
    (h1 : pyStrip raw ≠ "") (h2 : hasKey s.articles (pyStrip raw) = false)
    (hbad : sz.getD (NumText.num 0) = NumText.bad) :
    create_article s (some raw) sz = (s, [Msg.invalidSize]) := by
  have hsave : save_article s.articles (pyStrip raw) (sz.getD (NumText.num 0)) =
      (s.articles, [Msg.invalidSize], none) := by
    unfold save_article
    rw [hbad]
    rfl
  unfold create_article
  simp only [Option.getD_some]
  rw [ca_validate_none s raw h1 h2]
  dsimp only
  rw [hsave]
  dsimp only
  rw [getKey_eq_none h2]

theorem ca_nonpos (s : AppState) (raw : String) (sz : Option NumText) (q : ℚ)
    (h1 : pyStrip raw ≠ "") (h2 : hasKey s.articles (pyStrip raw) = false)
    (hq : sz.getD (NumText.num 0) = NumText.num q) (hle : q ≤ 0) :
    create_article s (some raw) sz = (s, [Msg.sizeMustBePositive]) := by
  have hsave : save_article s.articles (pyStrip raw) (sz.getD (NumText.num 0)) =
      (s.articles, [], some Msg.sizeMustBePositive) := by
    unfold save_article
    rw [hq]
    simp only [parseFloat]
    unfold validate_article_size
    dsimp only
    rw [if_pos hle]
  unfold create_article
  simp only [Option.getD_some]
  rw [ca_validate_none s raw h1 h2]
  dsimp only
  rw [hsave]
  rfl

theorem ca_success (s : AppState) (raw : String) (sz : Option NumText) (q : ℚ)
    (h1 : pyStrip raw ≠ "") (h2 : hasKey s.articles (pyStrip raw) = false)
    (hq : sz.getD (NumText.num 0) = NumText.num q) (hpos : 0 < q) :
    create_article s (some raw) sz =
      ({ s with articles := setKey s.articles (pyStrip raw) q },
       [Msg.articleCreated (pyStrip raw) q]) := by
  have hsave : save_article s.articles (pyStrip raw) (sz.getD (NumText.num 0)) =
      (setKey s.articles (pyStrip raw) q, [], none) := by
    unfold save_article
    rw [hq]
    simp only [parseFloat]
    unfold validate_article_size
    dsimp only
    rw [if_neg (not_le.2 hpos)]
  unfold create_article
  simp only [Option.getD_some]
  rw [ca_validate_none s raw h1 h2]
  dsimp only
  rw [hsave]
  dsimp only
  rw [getKey_setKey_self]
  rfl

/-! ### Branch equations for `add_article_to_warehouse` -/

theorem aa_whMissing (s : AppState) (w : String) (art : String)
    (hwh : getKey s.warehouses w = none) :
    add_article_to_warehouse s w (some art) = (s, [Msg.warehouseNotFound w]) := by
  have hval : validate_add_article_request s w (pyStrip art) =
      some (Msg.warehouseNotFound w) := by
    unfold validate_add_article_request
    rw [if_neg (by simp [hasKey, hwh])]
  unfold add_article_to_warehouse
  simp only [Option.getD_some]
  rw [hval]

theorem aa_artMissing (s : AppState) (w : String) (art : String) (wh : Varasto)
    (hwh : getKey s.warehouses w = some wh)
    (hart : getKey s.articles (pyStrip art) = none) :
    add_article_to_warehouse s w (some art) =
      (s, [Msg.articleNotFound (pyStrip art)]) := by
  have hval : validate_add_article_request s w (pyStrip art) =
      some (Msg.articleNotFound (pyStrip art)) := by
    unfold validate_add_article_request
    rw [if_pos (by simp [hasKey, hwh]), if_neg (by simp [hasKey, hart])]
  unfold add_article_to_warehouse
  simp only [Option.getD_some]
  rw [hval]

theorem aa_validate_none (s : AppState) (w : String) (artName : String)
    (wh : Varasto) (size : ℚ) (hwh : getKey s.warehouses w = some wh)
    (hart : getKey s.articles artName = some size) :
    validate_add_article_request s w artName = none := by
  unfold validate_add_article_request
  rw [if_pos (by simp [hasKey, hwh]), if_pos (by simp [hasKey, hart])]

theorem aa_noSpace (s : AppState) (w : String) (art : String) (wh : Varasto)
    (size : ℚ) (hwh : getKey s.warehouses w = some wh)
    (hart : getKey s.articles (pyStrip art) = some size)
    (hlt : wh.paljonko_mahtuu < size) :
    add_article_to_warehouse s w (some art) =
      (s, [Msg.notEnoughSpace (pyStrip art) size]) := by
  have htry : try_add_article s w (pyStrip art) =
      (s, some (Msg.notEnoughSpace (pyStrip art) size)) := by
    unfold try_add_article
    rw [hart, hwh]
    dsimp only
    rw [if_pos hlt]
  unfold add_article_to_warehouse
  simp only [Option.getD_some]
  rw [aa_validate_none s w (pyStrip art) wh size hwh hart]
  dsimp only
  rw [htry]

theorem aa_success (s : AppState) (w : String) (art : String) (wh : Varasto)
    (size : ℚ) (hwh : getKey s.warehouses w = some wh)
    (hart : getKey s.articles (pyStrip art) = some size)
    (h0 : 0 ≤ size) (hle : size ≤ wh.paljonko_mahtuu) :
    add_article_to_warehouse s w (some art) =
      ({ s with warehouses := setKey s.warehouses w ({ wh with saldo := wh.saldo + size }) },
       [Msg.addedArticle (pyStrip art) w]) := by
  have hl : wh.lisaa_varastoon size = ({ wh with saldo := wh.saldo + size }, VResult.ok) := by
    refine lisaa_accept wh size h0 ?_
    unfold Varasto.paljonko_mahtuu at hle
    linarith
  have htry : try_add_article s w (pyStrip art) =
      ({ s with warehouses := setKey s.warehouses w ({ wh with saldo := wh.saldo + size }) },
       none) := by
    unfold try_add_article
    rw [hart, hwh]
    dsimp only
    rw [if_neg (not_lt.2 hle), hl]
  unfold add_article_to_warehouse
  simp only [Option.getD_some]
  rw [aa_validate_none s w (pyStrip art) wh size hwh hart]
  dsimp only
  rw [htry]

/-! ### The claims -/

/-- C1: starting from the freshly created empty state (every Storage enters
the registry with balance 0 via `Varasto.create`), after any sequence of
create/deposit/withdraw/delete/apply-article requests every Storage in the
warehouse registry satisfies `0 ≤ saldo ≤ tilavuus`; since the sequence is
arbitrary, the invariant holds after every operation. -/
theorem claim_C1_invariant (ops : List Op) : Inv (run initState ops) := by
  refine inv_run initState ops ?_
  intro p hp
  simp [initState] at hp

/-- C2: for an existing warehouse `v` and a parsed amount `a ≥ 0`, the
deposit is rejected with `InsufficientSpace` and the stored balance is
unchanged when `saldo + a > tilavuus`; otherwise the deposit succeeds and
the stored balance becomes `saldo + a`. -/
theorem claim_C2_deposit_guard (s : AppState) (name : String) (v : Varasto) (a : ℚ)
    (hv : getKey s.warehouses name = some v) (ha : 0 ≤ a) :
    (v.tilavuus < v.saldo + a →
      v.lisaa_varastoon a = (v, VResult.insufficientSpace) ∧
      getKey (add_to_warehouse s name (some (NumText.num a))).1.warehouses name =
        some v) ∧
    (v.saldo + a ≤ v.tilavuus →
      v.lisaa_varastoon a = ({ v with saldo := v.saldo + a }, VResult.ok) ∧
      getKey (add_to_warehouse s name (some (NumText.num a))).1.warehouses name =
        some ({ v with saldo := v.saldo + a })) := by
  have hstate := addw_parsed s name (some (NumText.num a)) v a hv rfl
  constructor
  · intro h
    have hl := lisaa_over v a ha h
    refine ⟨hl, ?_⟩
    rw [hstate]
    dsimp only
    rw [hl]
    exact getKey_setKey_self _ _ _
  · intro h
    have hl := lisaa_accept v a ha h
    refine ⟨hl, ?_⟩
    rw [hstate]
    dsimp only
    rw [hl]
    exact getKey_setKey_self _ _ _

theorem claim_C2_deposit_guard_witness :
    (Varasto.lisaa_varastoon ⟨3, 0⟩ 5 = (⟨3, 0⟩, VResult.insufficientSpace) ∧
      getKey (add_to_warehouse ⟨[("W", ⟨3, 0⟩)], []⟩ "W"
        (some (NumText.num 5))).1.warehouses "W" = some ⟨3, 0⟩) ∧
    (Varasto.lisaa_varastoon ⟨100, 0⟩ 5 = (⟨100, 0 + 5⟩, VResult.ok) ∧
      getKey (add_to_warehouse ⟨[("W", ⟨100, 0⟩)], []⟩ "W"
        (some (NumText.num 5))).1.warehouses "W" = some ⟨100, 0 + 5⟩) :=
  ⟨(claim_C2_deposit_guard ⟨[("W", ⟨3, 0⟩)], []⟩ "W" ⟨3, 0⟩ 5 (by decide) (by decide)).1
      (by simp only [zero_add]; decide),
   (claim_C2_deposit_guard ⟨[("W", ⟨100, 0⟩)], []⟩ "W" ⟨100, 0⟩ 5 (by decide) (by decide)).2
      (by simp only [zero_add]; decide)⟩

/-- C3: for an existing warehouse `v` and a parsed amount `a ≥ 0`, the
withdrawal is rejected with `InsufficientBalance` and the stored balance is
unchanged when `a > saldo`; otherwise it succeeds and the stored balance
becomes `saldo - a`. -/
theorem claim_C3_withdraw_guard (s : AppState) (name : String) (v : Varasto) (a : ℚ)
    (hv : getKey s.warehouses name = some v) (ha : 0 ≤ a) :
    (v.saldo < a →
      v.ota_varastosta a = (v, VResult.insufficientBalance) ∧
      getKey (remove_from_warehouse s name (some (NumText.num a))).1.warehouses name =
        some v) ∧
    (a ≤ v.saldo →
      v.ota_varastosta a = ({ v with saldo := v.saldo - a }, VResult.ok) ∧
      getKey (remove_from_warehouse s name (some (NumText.num a))).1.warehouses name =
        some ({ v with saldo := v.saldo - a })) := by
  have hstate := remw_parsed s name (some (NumText.num a)) v a hv rfl
  constructor
  · intro h
    have hl := ota_over v a ha h
    refine ⟨hl, ?_⟩
    rw [hstate]
    dsimp only
    rw [hl]
    exact getKey_setKey_self _ _ _
  · intro h
    have hl := ota_accept v a ha h
    refine ⟨hl, ?_⟩
    rw [hstate]
    dsimp only
    rw [hl]
    exact getKey_setKey_self _ _ _

theorem claim_C3_withdraw_guard_witness :
    (Varasto.ota_varastosta ⟨100, 3⟩ 5 = (⟨100, 3⟩, VResult.insufficientBalance) ∧
      getKey (remove_from_warehouse ⟨[("W", ⟨100, 3⟩)], []⟩ "W"
        (some (NumText.num 5))).1.warehouses "W" = some ⟨100, 3⟩) ∧
    (Varasto.ota_varastosta ⟨100, 5⟩ 5 = (⟨100, 5 - 5⟩, VResult.ok) ∧
      getKey (remove_from_warehouse ⟨[("W", ⟨100, 5⟩)], []⟩ "W"
        (some (NumText.num 5))).1.warehouses "W" = some ⟨100, 5 - 5⟩) :=
  ⟨(claim_C3_withdraw_guard ⟨[("W", ⟨100, 3⟩)], []⟩ "W" ⟨100, 3⟩ 5 (by decide) (by decide)).1
      (by decide),
   (claim_C3_withdraw_guard ⟨[("W", ⟨100, 5⟩)], []⟩ "W" ⟨100, 5⟩ 5 (by decide) (by decide)).2
      (by decide)⟩

/-- C4: applying an article to a warehouse flashes not-found for the
warehouse first (regardless of the article), then for the article; with
both present and a positive article size, it is rejected with the
not-enough-space message and an unchanged state when the size exceeds
`paljonko_mahtuu()`, and otherwise deposits exactly the article size into
the warehouse and reports success. -/
theorem claim_C4_apply_article (s : AppState) (w artName : String) (wh : Varasto)
    (size : ℚ) (hstrip : pyStrip artName = artName) :
    (getKey s.warehouses w = none →
      add_article_to_warehouse s w (some artName) = (s, [Msg.warehouseNotFound w])) ∧
    (getKey s.warehouses w = some wh → getKey s.articles artName = none →
      add_article_to_warehouse s w (some artName) =
        (s, [Msg.articleNotFound artName])) ∧
    (getKey s.warehouses w = some wh → getKey s.articles artName = some size →
      0 < size →
      (wh.paljonko_mahtuu < size →
        add_article_to_warehouse s w (some artName) =
          (s, [Msg.notEnoughSpace artName size])) ∧
      (size ≤ wh.paljonko_mahtuu →
        add_article_to_warehouse s w (some artName) =
          ({ s with warehouses := setKey s.warehouses w ({ wh with saldo := wh.saldo + size }) },
           [Msg.addedArticle artName w]))) := by
  refine ⟨fun hwh => aa_whMissing s w artName hwh, ?_, ?_⟩
  · intro hwh hart
    have h2 := aa_artMissing s w artName wh hwh (by rw [hstrip]; exact hart)
    rwa [hstrip] at h2
  · intro hwh hart hpos
    constructor
    · intro hlt
      have h2 := aa_noSpace s w artName wh size hwh (by rw [hstrip]; exact hart) hlt
      rwa [hstrip] at h2
    · intro hle
      have h2 := aa_success s w artName wh size hwh (by rw [hstrip]; exact hart)
        (le_of_lt hpos) hle
      rwa [hstrip] at h2

theorem claim_C4_apply_article_witness :
    (add_article_to_warehouse ⟨[], [("A", 20)]⟩ "W" (some "A") =
      (⟨[], [("A", 20)]⟩, [Msg.warehouseNotFound "W"])) ∧
    (add_article_to_warehouse ⟨[("W", ⟨100, 0⟩)], []⟩ "W" (some "A") =
      (⟨[("W", ⟨100, 0⟩)], []⟩, [Msg.articleNotFound "A"])) ∧
    (add_article_to_warehouse ⟨[("W", ⟨10, 0⟩)], [("A", 20)]⟩ "W" (some "A") =
      (⟨[("W", ⟨10, 0⟩)], [("A", 20)]⟩, [Msg.notEnoughSpace "A" 20])) ∧
    (add_article_to_warehouse ⟨[("W", ⟨100, 0⟩)], [("A", 20)]⟩ "W" (some "A") =
      (⟨[("W", ⟨100, 0 + 20⟩)], [("A", 20)]⟩, [Msg.addedArticle "A" "W"])) ∧
    setKey [("W", (⟨100, 0⟩ : Varasto))] "W" ⟨100, 0 + 20⟩ = [("W", ⟨100, 20⟩)] :=
  ⟨(claim_C4_apply_article ⟨[], [("A", 20)]⟩ "W" "A" ⟨0, 0⟩ 0 (by decide)).1 (by decide),
   (claim_C4_apply_article ⟨[("W", ⟨100, 0⟩)], []⟩ "W" "A" ⟨100, 0⟩ 0 (by decide)).2.1
      (by decide) (by decide),
   ((claim_C4_apply_article ⟨[("W", ⟨10, 0⟩)], [("A", 20)]⟩ "W" "A" ⟨10, 0⟩ 20
      (by decide)).2.2 (by decide) (by decide) (by decide)).1
      (by simp only [Varasto.paljonko_mahtuu, sub_zero]; decide),
   ((claim_C4_apply_article ⟨[("W", ⟨100, 0⟩)], [("A", 20)]⟩ "W" "A" ⟨100, 0⟩ 20
      (by decide)).2.2 (by decide) (by decide) (by decide)).2
      (by simp only [Varasto.paljonko_mahtuu, sub_zero]; decide),
   by simp [setKey]⟩

/-- C5: creating a warehouse flashes name-required for an
empty-after-stripping name, else already-exists for a duplicate (leaving
the state, hence the existing entry, unchanged), else invalid-capacity when
the capacity text does not parse or parses negative; otherwise it stores a
fresh `Varasto` with the parsed capacity and balance 0 under the stripped
name. -/
theorem claim_C5_create_warehouse (s : AppState) (raw : String)
    (cap : Option NumText) (c : ℚ) :
    (pyStrip raw = "" →
      create_warehouse s (some raw) cap = (s, [Msg.warehouseNameRequired])) ∧
    (pyStrip raw ≠ "" → hasKey s.warehouses (pyStrip raw) = true →
      create_warehouse s (some raw) cap = (s, [Msg.warehouseExists (pyStrip raw)])) ∧
    (pyStrip raw ≠ "" → hasKey s.warehouses (pyStrip raw) = false →
      (cap.getD (NumText.num 0) = NumText.bad →
        create_warehouse s (some raw) cap = (s, [Msg.invalidCapacity])) ∧
      (cap.getD (NumText.num 0) = NumText.num c →
        (c < 0 → create_warehouse s (some raw) cap = (s, [Msg.invalidCapacity])) ∧
        (0 ≤ c → create_warehouse s (some raw) cap =
          ({ s with warehouses := setKey s.warehouses (pyStrip raw) ⟨c, 0⟩ },
           [Msg.warehouseCreated (pyStrip raw)])))) :=
  ⟨cw_nameRequired s raw cap,
   fun h1 h2 => cw_duplicate s raw cap h1 h2,
   fun h1 h2 =>
     ⟨fun hbad => cw_badCapacity s raw cap h1 h2 hbad,
      fun hc =>
        ⟨fun hneg => cw_negCapacity s raw cap c h1 h2 hc hneg,
         fun h0 => cw_success s raw cap c h1 h2 hc h0⟩⟩⟩

theorem claim_C5_create_warehouse_witness :
    (create_warehouse ⟨[("W", ⟨50, 0⟩)], []⟩ (some " ") (some (NumText.num 9)) =
      (⟨[("W", ⟨50, 0⟩)], []⟩, [Msg.warehouseNameRequired])) ∧
    (create_warehouse ⟨[("W", ⟨50, 0⟩)], []⟩ (some "W") (some (NumText.num 9)) =
      (⟨[("W", ⟨50, 0⟩)], []⟩, [Msg.warehouseExists (pyStrip "W")])) ∧
    (create_warehouse ⟨[("W", ⟨50, 0⟩)], []⟩ (some "V") (some NumText.bad) =
      (⟨[("W", ⟨50, 0⟩)], []⟩, [Msg.invalidCapacity])) ∧
    (create_warehouse ⟨[("W", ⟨50, 0⟩)], []⟩ (some "V") (some (NumText.num (-3))) =
      (⟨[("W", ⟨50, 0⟩)], []⟩, [Msg.invalidCapacity])) ∧
    (create_warehouse ⟨[("W", ⟨50, 0⟩)], []⟩ (some "V") (some (NumText.num 8)) =
      (⟨setKey [("W", ⟨50, 0⟩)] (pyStrip "V") ⟨8, 0⟩, []⟩,
       [Msg.warehouseCreated (pyStrip "V")])) :=
  ⟨(claim_C5_create_warehouse ⟨[("W", ⟨50, 0⟩)], []⟩ " " (some (NumText.num 9)) 9).1
      (by decide),
   (claim_C5_create_warehouse ⟨[("W", ⟨50, 0⟩)], []⟩ "W" (some (NumText.num 9)) 9).2.1
      (by decide) (by decide),
   ((claim_C5_create_warehouse ⟨[("W", ⟨50, 0⟩)], []⟩ "V" (some NumText.bad) 9).2.2
      (by decide) (by decide)).1 (by decide),
   (((claim_C5_create_warehouse ⟨[("W", ⟨50, 0⟩)], []⟩ "V" (some (NumText.num (-3)))
      (-3)).2.2 (by decide) (by decide)).2 (by decide)).1 (by decide),
   (((claim_C5_create_warehouse ⟨[("W", ⟨50, 0⟩)], []⟩ "V" (some (NumText.num 8))
      8).2.2 (by decide) (by decide)).2 (by decide)).2 (by decide)⟩

/-- C6: Storage creation with a negative capacity fails (reported as the
invalid-capacity error), and for any capacity `c ≥ 0` the fresh Storage has
balance 0 and available space equal to `c`. -/
theorem claim_C6_storage_create (c : ℚ) :
    (c < 0 → Varasto.create c = none) ∧
    (0 ≤ c → Varasto.create c = some ⟨c, 0⟩ ∧
      (⟨c, 0⟩ : Varasto).saldo = 0 ∧ Varasto.paljonko_mahtuu ⟨c, 0⟩ = c) := by
  constructor
  · intro h
    unfold Varasto.create
    rw [if_pos h]
  · intro h
    refine ⟨?_, rfl, ?_⟩
    · unfold Varasto.create
      rw [if_neg (not_lt.2 h)]
    · unfold Varasto.paljonko_mahtuu
      simp

theorem claim_C6_storage_create_witness :
    Varasto.create (-2) = none ∧
    (Varasto.create 7 = some ⟨7, 0⟩ ∧ (⟨7, 0⟩ : Varasto).saldo = 0 ∧
      Varasto.paljonko_mahtuu ⟨7, 0⟩ = 7) :=
  ⟨(claim_C6_storage_create (-2)).1 (by decide),
   (claim_C6_storage_create 7).2 (by decide)⟩

/-- C7: creating an article flashes name-required for an
empty-after-stripping name, already-exists for a duplicate, invalid-size
for an unparseable size and size-must-be-positive for a parsed size `≤ 0`
(including exactly 0), inserting nothing in each failure case; a parsed
size `> 0` under a fresh name is inserted and reported created. -/
theorem claim_C7_create_article (s : AppState) (raw : String)
    (sz : Option NumText) (q : ℚ) :
    (pyStrip raw = "" →
      create_article s (some raw) sz = (s, [Msg.articleNameRequired])) ∧
    (pyStrip raw ≠ "" → hasKey s.articles (pyStrip raw) = true →
      create_article s (some raw) sz = (s, [Msg.articleExists (pyStrip raw)])) ∧
    (pyStrip raw ≠ "" → hasKey s.articles (pyStrip raw) = false →
      (sz.getD (NumText.num 0) = NumText.bad →
        create_article s (some raw) sz = (s, [Msg.invalidSize])) ∧
      (sz.getD (NumText.num 0) = NumText.num q →
        (q ≤ 0 → create_article s (some raw) sz = (s, [Msg.sizeMustBePositive])) ∧
        (0 < q → create_article s (some raw) sz =
          ({ s with articles := setKey s.articles (pyStrip raw) q },
           [Msg.articleCreated (pyStrip raw) q])))) :=
  ⟨ca_nameRequired s raw sz,
   fun h1 h2 => ca_duplicate s raw sz h1 h2,
   fun h1 h2 =>
     ⟨fun hbad => ca_badSize s raw sz h1 h2 hbad,
      fun hq =>
        ⟨fun hle => ca_nonpos s raw sz q h1 h2 hq hle,
         fun hpos => ca_success s raw sz q h1 h2 hq hpos⟩⟩⟩

theorem claim_C7_create_article_witness :
    (create_article ⟨[], [("A", 5)]⟩ (some "  ") (some (NumText.num 4)) =
      (⟨[], [("A", 5)]⟩, [Msg.articleNameRequired])) ∧
    (create_article ⟨[], [("A", 5)]⟩ (some "A") (some (NumText.num 4)) =
      (⟨[], [("A", 5)]⟩, [Msg.articleExists (pyStrip "A")])) ∧
    (create_article ⟨[], [("A", 5)]⟩ (some "B") (some NumText.bad) =
      (⟨[], [("A", 5)]⟩, [Msg.invalidSize])) ∧
    (create_article ⟨[], [("A", 5)]⟩ (some "B") (some (NumText.num 0)) =
      (⟨[], [("A", 5)]⟩, [Msg.sizeMustBePositive])) ∧
    (create_article ⟨[], [("A", 5)]⟩ (some "B") (some (NumText.num (-1))) =
      (⟨[], [("A", 5)]⟩, [Msg.sizeMustBePositive])) ∧
    (create_article ⟨[], [("A", 5)]⟩ (some "B") (some (NumText.num 4)) =
      (⟨[], setKey [("A", 5)] (pyStrip "B") 4⟩, [Msg.articleCreated (pyStrip "B") 4])) :=
  ⟨(claim_C7_create_article ⟨[], [("A", 5)]⟩ "  " (some (NumText.num 4)) 4).1 (by decide),
   (claim_C7_create_article ⟨[], [("A", 5)]⟩ "A" (some (NumText.num 4)) 4).2.1
      (by decide) (by decide),
   ((claim_C7_create_article ⟨[], [("A", 5)]⟩ "B" (some NumText.bad) 4).2.2
      (by decide) (by decide)).1 (by decide),
   (((claim_C7_create_article ⟨[], [("A", 5)]⟩ "B" (some (NumText.num 0)) 0).2.2
      (by decide) (by decide)).2 (by decide)).1 (by decide),
   (((claim_C7_create_article ⟨[], [("A", 5)]⟩ "B" (some (NumText.num (-1))) (-1)).2.2
      (by decide) (by decide)).2 (by decide)).1 (by decide),
   (((claim_C7_create_article ⟨[], [("A", 5)]⟩ "B" (some (NumText.num 4)) 4).2.2
      (by decide) (by decide)).2 (by decide)).2 (by decide)⟩

/-- C8: a negative amount is rejected as a silent no-op by both deposit and
withdraw — the Storage is returned unchanged with the negative-amount
rejection result rather than a raised fault, and the stored warehouse entry
is unchanged through both handlers. -/
theorem claim_C8_negative_noop (s : AppState) (name : String) (v : Varasto) (a : ℚ)
    (hv : getKey s.warehouses name = some v) (ha : a < 0) :
    v.lisaa_varastoon a = (v, VResult.negativeAmount) ∧
    v.ota_varastosta a = (v, VResult.negativeAmount) ∧
    getKey (add_to_warehouse s name (some (NumText.num a))).1.warehouses name =
      some v ∧
    getKey (remove_from_warehouse s name (some (NumText.num a))).1.warehouses name =
      some v := by
  have hla := lisaa_neg v a ha
  have hoa := ota_neg v a ha
  refine ⟨hla, hoa, ?_, ?_⟩
  · rw [addw_parsed s name (some (NumText.num a)) v a hv rfl]
    dsimp only
    rw [hla]
    exact getKey_setKey_self _ _ _
  · rw [remw_parsed s name (some (NumText.num a)) v a hv rfl]
    dsimp only
    rw [hoa]
    exact getKey_setKey_self _ _ _

theorem claim_C8_negative_noop_witness :
    Varasto.lisaa_varastoon ⟨10, 4⟩ (-2) = (⟨10, 4⟩, VResult.negativeAmount) ∧
    Varasto.ota_varastosta ⟨10, 4⟩ (-2) = (⟨10, 4⟩, VResult.negativeAmount) ∧
    getKey (add_to_warehouse ⟨[("W", ⟨10, 4⟩)], []⟩ "W"
      (some (NumText.num (-2)))).1.warehouses "W" = some ⟨10, 4⟩ ∧
    getKey (remove_from_warehouse ⟨[("W", ⟨10, 4⟩)], []⟩ "W"
      (some (NumText.num (-2)))).1.warehouses "W" = some ⟨10, 4⟩ :=
  claim_C8_negative_noop ⟨[("W", ⟨10, 4⟩)], []⟩ "W" ⟨10, 4⟩ (-2) (by decide) (by decide)

/-- C9: an absent numeric form field defaults to the text `"0"`: warehouse
creation with no capacity field succeeds with capacity 0, add/remove with
no amount field is applied with amount 0, and article creation with no
size field is rejected with the size-must-be-positive message. -/
theorem claim_C9_missing_fields (s : AppState) (raw nm : String) (v : Varasto) :
    (pyStrip raw ≠ "" → hasKey s.warehouses (pyStrip raw) = false →
      create_warehouse s (some raw) none =
        ({ s with warehouses := setKey s.warehouses (pyStrip raw) ⟨0, 0⟩ },
         [Msg.warehouseCreated (pyStrip raw)])) ∧
    (getKey s.warehouses nm = some v →
      add_to_warehouse s nm none =
        ({ s with warehouses := setKey s.warehouses nm (v.lisaa_varastoon 0).1 },
         [Msg.added 0 nm]) ∧
      remove_from_warehouse s nm none =
        ({ s with warehouses := setKey s.warehouses nm (v.ota_varastosta 0).1 },
         [Msg.removed 0 nm])) ∧
    (pyStrip raw ≠ "" → hasKey s.articles (pyStrip raw) = false →
      create_article s (some raw) none = (s, [Msg.sizeMustBePositive])) :=
  ⟨fun h1 h2 => cw_success s raw none 0 h1 h2 rfl (le_refl 0),
   fun hv => ⟨addw_parsed s nm none v 0 hv rfl, remw_parsed s nm none v 0 hv rfl⟩,
   fun h1 h2 => ca_nonpos s raw none 0 h1 h2 rfl (le_refl 0)⟩

theorem claim_C9_missing_fields_witness :
    (create_warehouse ⟨[("W", ⟨10, 4⟩)], []⟩ (some "N") none =
      (⟨setKey [("W", ⟨10, 4⟩)] (pyStrip "N") ⟨0, 0⟩, []⟩,
       [Msg.warehouseCreated (pyStrip "N")])) ∧
    (add_to_warehouse ⟨[("W", ⟨10, 4⟩)], []⟩ "W" none =
      (⟨setKey [("W", ⟨10, 4⟩)] "W" (Varasto.lisaa_varastoon ⟨10, 4⟩ 0).1, []⟩,
       [Msg.added 0 "W"]) ∧
     remove_from_warehouse ⟨[("W", ⟨10, 4⟩)], []⟩ "W" none =
      (⟨setKey [("W", ⟨10, 4⟩)] "W" (Varasto.ota_varastosta ⟨10, 4⟩ 0).1, []⟩,
       [Msg.removed 0 "W"])) ∧
    (create_article ⟨[("W", ⟨10, 4⟩)], []⟩ (some "N") none =
      (⟨[("W", ⟨10, 4⟩)], []⟩, [Msg.sizeMustBePositive])) :=
  ⟨(claim_C9_missing_fields ⟨[("W", ⟨10, 4⟩)], []⟩ "N" "W" ⟨10, 4⟩).1
      (by decide) (by decide),
   (claim_C9_missing_fields ⟨[("W", ⟨10, 4⟩)], []⟩ "N" "W" ⟨10, 4⟩).2.1 (by decide),
   (claim_C9_missing_fields ⟨[("W", ⟨10, 4⟩)], []⟩ "N" "W" ⟨10, 4⟩).2.2
      (by decide) (by decide)⟩

/-- C10: every form-submitted name (warehouse creation, article creation,
article application) is used only through `strip()`: two submissions whose
stripped forms agree produce identical results, and a whitespace-only name
behaves as the empty name (rejected as name-required). -/
theorem claim_C10_strip (s : AppState) (raw1 raw2 w : String)
    (cap sz : Option NumText) :
    (pyStrip raw1 = pyStrip raw2 →
      create_warehouse s (some raw1) cap = create_warehouse s (some raw2) cap ∧
      create_article s (some raw1) sz = create_article s (some raw2) sz ∧
      add_article_to_warehouse s w (some raw1) =
        add_article_to_warehouse s w (some raw2)) ∧
    (raw1.data.all pyIsSpace = true →
      create_warehouse s (some raw1) cap = (s, [Msg.warehouseNameRequired]) ∧
      create_article s (some raw1) sz = (s, [Msg.articleNameRequired])) := by
  constructor
  · intro h
    refine ⟨?_, ?_, ?_⟩
    · unfold create_warehouse
      simp only [Option.getD_some, h]
    · unfold create_article
      simp only [Option.getD_some, h]
    · unfold add_article_to_warehouse
      simp only [Option.getD_some, h]
  · intro h
    have he := pyStrip_eq_empty h
    exact ⟨cw_nameRequired s raw1 cap he, ca_nameRequired s raw1 sz he⟩

theorem claim_C10_strip_witness :
    (create_warehouse ⟨[], []⟩ (some " W ") (some (NumText.num 5)) =
      create_warehouse ⟨[], []⟩ (some "W") (some (NumText.num 5)) ∧
     create_article ⟨[], []⟩ (some " W ") (some (NumText.num 5)) =
      create_article ⟨[], []⟩ (some "W") (some (NumText.num 5)) ∧
     add_article_to_warehouse ⟨[], []⟩ "X" (some " W ") =
      add_article_to_warehouse ⟨[], []⟩ "X" (some "W")) ∧
    (create_warehouse ⟨[], []⟩ (some "  ") (some (NumText.num 5)) =
      (⟨[], []⟩, [Msg.warehouseNameRequired]) ∧
     create_article ⟨[], []⟩ (some "  ") (some (NumText.num 5)) =
      (⟨[], []⟩, [Msg.articleNameRequired])) :=
  ⟨(claim_C10_strip ⟨[], []⟩ " W " "W" "X" (some (NumText.num 5))
      (some (NumText.num 5))).1 (by decide),
   (claim_C10_strip ⟨[], []⟩ "  " "W" "X" (some (NumText.num 5))
      (some (NumText.num 5))).2 (by decide)⟩

end Ohtuvarasto
